import Mathlib

/-!
Verification of the Working-Capital-Optimizer-Pro core against its
specification.

The dashboard script (`src/app.py`) is embedded shallowly: its pandas
column arithmetic is modelled over exact rationals extended with the
IEEE-754 special values (`inf`, `-inf`, `nan`) that float division by
zero silently produces, and the script body (upload check, fixed-file
read, ratio derivation, column means, mocked optimized CCC) becomes a
pure function of the uploaded table, the on-disk table and the two
sidebar rates.  The LP optimizer, financial-impact and Monte-Carlo
sensitivity operations described by the specification have no
implementation in `src/`; they are modelled from the specification text
and marked as such in their doc comments.
-/

/-- One row of the input table: the five required numeric columns,
modelled as exact rationals. -/
structure FinancialRecord where
  Sales : ℚ
  COGS : ℚ
  Accounts_Receivable : ℚ
  Inventory_Value : ℚ
  Accounts_Payable : ℚ
deriving DecidableEq

/-- An IEEE-754-style extended number as produced by pandas/numpy float
arithmetic: a finite value (kept exact as a rational), positive or
negative infinity, or NaN. -/
inductive PValue where
  | fin (q : ℚ)
  | inf
  | negInf
  | nan
deriving DecidableEq

/-- Float division as pandas performs it on columns: a zero denominator
silently yields `inf`, `-inf` or `nan` depending on the numerator's
sign; otherwise the exact quotient. -/
def pdiv (n d : ℚ) : PValue :=
  if d = 0 then
    if 0 < n then PValue.inf else if n < 0 then PValue.negInf else PValue.nan
  else
    PValue.fin (n / d)

/-- Multiplication of an extended value by a finite rational constant,
with IEEE sign handling for the infinite cases (`0 * inf = nan`). -/
def pscale (c : ℚ) : PValue → PValue
  | PValue.fin q => PValue.fin (c * q)
  | PValue.inf => if 0 < c then PValue.inf else if c < 0 then PValue.negInf else PValue.nan
  | PValue.negInf => if 0 < c then PValue.negInf else if c < 0 then PValue.inf else PValue.nan
  | PValue.nan => PValue.nan

/-- IEEE addition on extended values: NaN propagates, opposite
infinities give NaN. -/
def padd : PValue → PValue → PValue
  | PValue.nan, _ => PValue.nan
  | _, PValue.nan => PValue.nan
  | PValue.fin a, PValue.fin b => PValue.fin (a + b)
  | PValue.fin _, PValue.inf => PValue.inf
  | PValue.inf, PValue.fin _ => PValue.inf
  | PValue.fin _, PValue.negInf => PValue.negInf
  | PValue.negInf, PValue.fin _ => PValue.negInf
  | PValue.inf, PValue.inf => PValue.inf
  | PValue.negInf, PValue.negInf => PValue.negInf
  | PValue.inf, PValue.negInf => PValue.nan
  | PValue.negInf, PValue.inf => PValue.nan

/-- IEEE negation on extended values. -/
def pneg : PValue → PValue
  | PValue.fin a => PValue.fin (-a)
  | PValue.inf => PValue.negInf
  | PValue.negInf => PValue.inf
  | PValue.nan => PValue.nan

/-- IEEE subtraction on extended values. -/
def psub (a b : PValue) : PValue := padd a (pneg b)

/-- The per-record derived columns of the dashboard. -/
structure DerivedRatios where
  DSO : PValue
  DIO : PValue
  DPO : PValue
  CCC : PValue
deriving DecidableEq

/-- The core calculations of `src/app.py` lines 28-31:
`DSO = AR/Sales*365`, `DIO = Inventory/COGS*365`, `DPO = AP/COGS*365`,
`CCC = DIO + DSO - DPO`, performed in float arithmetic with no guard on
the denominators. -/
def deriveRatios (r : FinancialRecord) : DerivedRatios :=
  let dso := pscale 365 (pdiv r.Accounts_Receivable r.Sales)
  let dio := pscale 365 (pdiv r.Inventory_Value r.COGS)
  let dpo := pscale 365 (pdiv r.Accounts_Payable r.COGS)
  { DSO := dso, DIO := dio, DPO := dpo, CCC := psub (padd dio dso) dpo }

/-- Sum of a list of extended values, as pandas sums a float column. -/
def psum (xs : List PValue) : PValue := xs.foldl padd (PValue.fin 0)

/-- Division of an extended value by a positive count. -/
def pdivCount (v : PValue) (n : ℕ) : PValue :=
  match v with
  | PValue.fin q => PValue.fin (q / (n : ℚ))
  | PValue.inf => PValue.inf
  | PValue.negInf => PValue.negInf
  | PValue.nan => PValue.nan

/-- Recognize the NaN value. -/
def isNaN : PValue → Bool
  | PValue.nan => true
  | _ => false

/-- `Series.mean()` as pandas computes it with its default
`skipna=True`: NaN entries are dropped, and the mean of the remaining
entries is returned; with zero remaining entries the result is NaN (no
error is raised). -/
def pmean (xs : List PValue) : PValue :=
  let valid := xs.filter (fun v => !(isNaN v))
  if valid.isEmpty then PValue.nan else pdivCount (psum valid) valid.length

/-- Everything the dashboard computes from the table: the derived
per-row ratios, the four average metrics of row 1, and the current /
"optimized" CCC of the gauge. -/
structure DashboardOutputs where
  ratios : List DerivedRatios
  avgCCC : PValue
  avgDSO : PValue
  avgDIO : PValue
  avgDPO : PValue
  currentCCC : PValue
  optimizedCCC : PValue
deriving DecidableEq

/-- The computational body of `src/app.py` (lines 28-99) applied to a
data frame `df`: derive the four ratio columns, take their means, and
mock the optimized CCC as `current_ccc * 0.82` (line 82).  The sidebar
values `interest_rate` and `holding_cost` (lines 18-19) are in scope,
exactly as in the script, but the body never uses them. -/
def runDashboard (interest_rate holding_cost : ℚ)
    (df : List FinancialRecord) : DashboardOutputs :=
  let ratios := df.map deriveRatios
  let avgCCC := pmean (ratios.map DerivedRatios.CCC)
  let avgDSO := pmean (ratios.map DerivedRatios.DSO)
  let avgDIO := pmean (ratios.map DerivedRatios.DIO)
  let avgDPO := pmean (ratios.map DerivedRatios.DPO)
  let current := avgCCC
  let optimized := pscale (82/100) current
  { ratios := ratios, avgCCC := avgCCC, avgDSO := avgDSO,
    avgDIO := avgDIO, avgDPO := avgDPO,
    currentCCC := current, optimizedCCC := optimized }

/-- The top of the script (lines 22-25): if a file was uploaded, the
code reads the FIXED on-disk file `working capital data 600 rows.csv`
(the uploaded content is never passed to the reader) and runs the
dashboard on it; otherwise nothing is computed. -/
def appRun (interest_rate holding_cost : ℚ)
    (uploaded : Option (List FinancialRecord))
    (diskTable : List FinancialRecord) : Option DashboardOutputs :=
  match uploaded with
  | none => none
  | some _ => some (runDashboard interest_rate holding_cost diskTable)

/-- The two-row example table of the specification (§8, end-to-end
scenario). -/
def exampleRows : List FinancialRecord :=
  [⟨1000, 600, 100, 90, 80⟩, ⟨2000, 1200, 150, 150, 100⟩]

/-- Modelled from the spec: `OptimizationBounds` (§3) — a box interval
for each of the three decision variables plus up to three additional
one-sided inequalities (a lower bound on DSO_opt, a lower bound on
DIO_opt, an upper bound on DPO_opt), absent from `src/`. -/
structure OptimizationBounds where
  dsoLo : ℚ
  dsoHi : ℚ
  dioLo : ℚ
  dioHi : ℚ
  dpoLo : ℚ
  dpoHi : ℚ
  dsoGe : Option ℚ
  dioGe : Option ℚ
  dpoLe : Option ℚ
deriving DecidableEq

/-- Modelled from the spec: `OptimizationResult` (§3) — the three
optimized day-values and the resulting optimal CCC, absent from
`src/`. -/
structure OptimizationResult where
  DSO_opt : ℚ
  DIO_opt : ℚ
  DPO_opt : ℚ
  ccc : ℚ
deriving DecidableEq

/-- Modelled from the spec: the aggregate-level error taxonomy (§7)
relevant to the optimizer, absent from `src/`. -/
inductive OptError where
  | infeasible
deriving DecidableEq

/-- An optional extra lower bound is satisfied. -/
def lbOk (o : Option ℚ) (x : ℚ) : Prop :=
  match o with
  | none => True
  | some c => c ≤ x

/-- An optional extra upper bound is satisfied. -/
def ubOk (o : Option ℚ) (x : ℚ) : Prop :=
  match o with
  | none => True
  | some c => x ≤ c

instance (o : Option ℚ) (x : ℚ) : Decidable (lbOk o x) :=
  match o with
  | none => isTrue trivial
  | some c => inferInstanceAs (Decidable (c ≤ x))

instance (o : Option ℚ) (x : ℚ) : Decidable (ubOk o x) :=
  match o with
  | none => isTrue trivial
  | some c => inferInstanceAs (Decidable (x ≤ c))

/-- A point `(x, y, z)` for `(DSO_opt, DIO_opt, DPO_opt)` satisfies all
box bounds and extra inequality constraints of `b`. -/
def feasible (b : OptimizationBounds) (x y z : ℚ) : Prop :=
  b.dsoLo ≤ x ∧ x ≤ b.dsoHi ∧
  b.dioLo ≤ y ∧ y ≤ b.dioHi ∧
  b.dpoLo ≤ z ∧ z ≤ b.dpoHi ∧
  lbOk b.dsoGe x ∧ lbOk b.dioGe y ∧ ubOk b.dpoLe z

/-- The LP objective `DSO_opt + DIO_opt - DPO_opt` (§4.2). -/
def objective (x y z : ℚ) : ℚ := x + y - z

/-- A point is an optimal solution of the LP: feasible, and of minimal
objective among all feasible points.  This is the contract any general
LP solver must meet (§4.2). -/
def isOptimal (b : OptimizationBounds) (x y z : ℚ) : Prop :=
  feasible b x y z ∧
  ∀ u v w : ℚ, feasible b u v w → objective x y z ≤ objective u v w

/-- The inequality-tightened lower bound of DSO_opt. -/
def effDsoLo (b : OptimizationBounds) : ℚ :=
  match b.dsoGe with
  | none => b.dsoLo
  | some c => max b.dsoLo c

/-- The inequality-tightened lower bound of DIO_opt. -/
def effDioLo (b : OptimizationBounds) : ℚ :=
  match b.dioGe with
  | none => b.dioLo
  | some c => max b.dioLo c

/-- The inequality-tightened upper bound of DPO_opt. -/
def effDpoHi (b : OptimizationBounds) : ℚ :=
  match b.dpoLe with
  | none => b.dpoHi
  | some c => min b.dpoHi c

/-- Internal consistency of the bounds: for every variable the
tightened lower bound does not exceed the tightened upper bound. -/
def consistent (b : OptimizationBounds) : Prop :=
  effDsoLo b ≤ b.dsoHi ∧ effDioLo b ≤ b.dioHi ∧ b.dpoLo ≤ effDpoHi b

instance (b : OptimizationBounds) : Decidable (consistent b) := by
  unfold consistent; infer_instance

/-- Modelled from the spec: the direct bound-tightening solver (§4.2) —
intersect each variable's box bound with the inequality constraining
it, fail with `InfeasibleError` when some tightened lower bound exceeds
the tightened upper bound, and otherwise take the minimizing extreme
for DSO_opt and DIO_opt and the maximizing extreme for DPO_opt.  The
optimizer is absent from `src/`. -/
def solveTighten (b : OptimizationBounds) : Except OptError OptimizationResult :=
  if consistent b then
    Except.ok ⟨effDsoLo b, effDioLo b, effDpoHi b,
               effDsoLo b + effDioLo b - effDpoHi b⟩
  else
    Except.error OptError.infeasible

/-- The default bounds of the spec (§6): DSO_opt ∈ [20,100] with
DSO_opt ≥ 30, DIO_opt ∈ [30,100] with DIO_opt ≥ 45, DPO_opt ∈ [15,150]
with DPO_opt ≤ 60. -/
def defaultBounds : OptimizationBounds :=
  ⟨20, 100, 30, 100, 15, 150, some 30, some 45, some 60⟩

/-- The contradictory bounds of the spec's infeasibility example (§8):
DSO_opt ∈ [20,100] combined with the inequality DSO_opt ≥ 150. -/
def infeasibleExample : OptimizationBounds :=
  ⟨20, 100, 30, 100, 15, 150, some 150, some 45, some 60⟩

/-- Modelled from the spec: `BaselineSummary` (§3), absent from
`src/`. -/
structure BaselineSummary where
  meanDSO : ℚ
  meanDIO : ℚ
  meanDPO : ℚ
  meanCCC : ℚ
  meanSales : ℚ
deriving DecidableEq

/-- Modelled from the spec: `FinancialImpact` (§3), absent from
`src/`. -/
structure FinancialImpact where
  efficiencyGain : ℚ
  cashReleased : ℚ
  interestSavings : ℚ
deriving DecidableEq

/-- Modelled from the spec: `computeFinancialImpact` (§4.2) — gain =
baseline.CCC - result.CCC, cash released = gain * (meanSales / 365),
interest savings = cash released * annual rate.  Absent from `src/`. -/
def computeFinancialImpact (baseline : BaselineSummary)
    (result : OptimizationResult) (annualInterestRate : ℚ) : FinancialImpact :=
  let gain := baseline.meanCCC - result.ccc
  let cash := gain * (baseline.meanSales / 365)
  { efficiencyGain := gain, cashReleased := cash,
    interestSavings := cash * annualInterestRate }

/-- One step of a linear congruential pseudo-random generator. -/
def lcg (s : ℕ) : ℕ := (1103515245 * s + 12345) % 2 ^ 31

/-- The generator state after `i + 1` steps from `seed`. -/
def lcgIter (seed : ℕ) : ℕ → ℕ
  | 0 => lcg seed
  | n + 1 => lcg (lcgIter seed n)

/-- Modelled from the spec: the `i`-th shock factor drawn from the
seeded stream.  The spec draws from Normal(mean 1, stdev 0.05); the
distribution itself is not load-bearing for the claims, so the draw is
modelled as a deterministic rational in `[0.95, 1.05]` obtained from a
pseudo-random stream determined by the seed. -/
def shockAt (seed i : ℕ) : ℚ :=
  1 + ((lcgIter seed i % 2001 : ℤ) - 1000) / 20000

/-- Modelled from the spec: `runSensitivity` (§4.2) — draw
`sampleCount` shock factors from the seeded stream and compute
`simulatedCCC = DIO_opt * shock + DSO_opt * shock - DPO_opt` for each
(DPO_opt unshocked), returning the ordered list of samples.  Absent
from `src/`. -/
def runSensitivity (result : OptimizationResult) (sampleCount : ℕ)
    (seed : ℕ) : List ℚ :=
  (List.range sampleCount).map (fun i =>
    result.DIO_opt * shockAt seed i + result.DSO_opt * shockAt seed i
      - result.DPO_opt)

/-- Under consistent bounds, the bound-tightening point satisfies every
box bound and extra inequality. -/
theorem tighten_feasible (b : OptimizationBounds) (h : consistent b) :
    feasible b (effDsoLo b) (effDioLo b) (effDpoHi b) := by
  obtain ⟨h1, h2, h3⟩ := h
  refine ⟨?_, h1, ?_, h2, h3, ?_, ?_, ?_, ?_⟩
  · unfold effDsoLo; cases b.dsoGe <;> simp
  · unfold effDioLo; cases b.dioGe <;> simp
  · unfold effDpoHi; cases b.dpoLe <;> simp
  · unfold lbOk effDsoLo; cases b.dsoGe <;> simp
  · unfold lbOk effDioLo; cases b.dioGe <;> simp
  · unfold ubOk effDpoHi; cases b.dpoLe <;> simp

/-- Every feasible point lies above the tightened lower bounds of
DSO_opt and DIO_opt and below the tightened upper bound of DPO_opt. -/
theorem feasible_le_tightened (b : OptimizationBounds) (x y z : ℚ)
    (hf : feasible b x y z) :
    effDsoLo b ≤ x ∧ effDioLo b ≤ y ∧ z ≤ effDpoHi b := by
  obtain ⟨h1, _, h2, _, _, h3, h4, h5, h6⟩ := hf
  refine ⟨?_, ?_, ?_⟩
  · unfold effDsoLo; cases hc : b.dsoGe with
    | none => exact h1
    | some c => rw [hc] at h4; exact max_le h1 h4
  · unfold effDioLo; cases hc : b.dioGe with
    | none => exact h2
    | some c => rw [hc] at h5; exact max_le h2 h5
  · unfold effDpoHi; cases hc : b.dpoLe with
    | none => exact h3
    | some c => rw [hc] at h6; exact le_min h3 h6

/-- Claim C2: for every record with Sales > 0 and COGS > 0 the derived
columns are exactly DSO = AR/Sales*365, DIO = Inventory/COGS*365,
DPO = AP/COGS*365 and CCC = DIO + DSO - DPO (exact rational equality,
hence within any floating-point tolerance). -/
theorem deriveRatios_formulas (r : FinancialRecord)
    (hS : 0 < r.Sales) (hC : 0 < r.COGS) :
    (deriveRatios r).DSO = PValue.fin (r.Accounts_Receivable / r.Sales * 365) ∧
    DerivedRatios.DIO (deriveRatios r) = PValue.fin (r.Inventory_Value / r.COGS * 365) ∧
    (deriveRatios r).DPO = PValue.fin (r.Accounts_Payable / r.COGS * 365) ∧
    (deriveRatios r).CCC = PValue.fin (r.Inventory_Value / r.COGS * 365
      + r.Accounts_Receivable / r.Sales * 365
      - r.Accounts_Payable / r.COGS * 365) := by
  have hS0 : r.Sales ≠ 0 := ne_of_gt hS
  have hC0 : r.COGS ≠ 0 := ne_of_gt hC
  refine ⟨?_, ?_, ?_, ?_⟩ <;>
    simp [deriveRatios, pdiv, pscale, padd, pneg, psub, hS0, hC0] <;> ring

/-- Witness for C2 at the spec's first example record
(Sales 1000, COGS 600, AR 100, Inventory 90, AP 80). -/
theorem deriveRatios_formulas_witness :
    (deriveRatios ⟨1000, 600, 100, 90, 80⟩).DSO
      = PValue.fin ((100 : ℚ) / 1000 * 365) ∧
    DerivedRatios.DIO (deriveRatios ⟨1000, 600, 100, 90, 80⟩)
      = PValue.fin ((90 : ℚ) / 600 * 365) ∧
    (deriveRatios ⟨1000, 600, 100, 90, 80⟩).DPO
      = PValue.fin ((80 : ℚ) / 600 * 365) ∧
    (deriveRatios ⟨1000, 600, 100, 90, 80⟩).CCC
      = PValue.fin ((90 : ℚ) / 600 * 365 + (100 : ℚ) / 1000 * 365
          - (80 : ℚ) / 600 * 365) :=
  deriveRatios_formulas ⟨1000, 600, 100, 90, 80⟩ (by decide) (by decide)

/-- Claim C3 (code divergence): the code signals no error on a zero
denominator — a record with Sales = 0 silently gets DSO = inf, and a
record with COGS = 0 silently gets DIO = inf and DPO = inf, instead of
a DivisionByZeroError. -/
theorem deriveRatios_zero_denominator_silent :
    (deriveRatios ⟨0, 600, 100, 90, 80⟩).DSO = PValue.inf ∧
    DerivedRatios.DIO (deriveRatios ⟨1000, 0, 100, 90, 80⟩) = PValue.inf ∧
    (deriveRatios ⟨1000, 0, 100, 90, 80⟩).DPO = PValue.inf := by
  norm_num [deriveRatios, pdiv, pscale]

/-- Claim C1 (code divergence): on the spec's example table the code's
displayed "optimized CCC" is 0.82 * mean CCC = 20951/600 ≈ 34.92 —
data-dependent and different from the LP optimum — while the
spec-modelled optimizer on the default bounds returns exactly
(30, 45, 60) with CCC 15. -/
theorem optimizedCCC_mock_not_lp :
    (runDashboard (1/10) (3/20) exampleRows).optimizedCCC
      = PValue.fin (20951/600) ∧
    (20951/600 : ℚ) ≠ 15 ∧
    solveTighten defaultBounds = Except.ok ⟨30, 45, 60, 15⟩ := by
  refine ⟨?_, by norm_num, ?_⟩
  · norm_num [runDashboard, exampleRows, deriveRatios, pdiv, pscale, padd,
      pneg, psub, pmean, psum, pdivCount, isNaN, List.filter]
  · rw [solveTighten, if_pos (by decide)]
    norm_num [effDsoLo, effDioLo, effDpoHi, defaultBounds]

/-- Claim C4 (code divergence): the dashboard's outputs are computed
from the fixed on-disk table, never from the uploaded one — any two
uploads produce identical outputs. -/
theorem appRun_ignores_upload (disk u1 u2 : List FinancialRecord)
    (rate hold : ℚ) :
    appRun rate hold (some u1) disk = appRun rate hold (some u2) disk := rfl

/-- Claim C5 (code divergence): on a dataset with zero valid records
the code's mean is the silent value NaN, not an EmptyDatasetError —
shown both for the empty table and for the bare empty mean. -/
theorem mean_of_empty_is_nan :
    (runDashboard (1/10) (3/20) []).avgCCC = PValue.nan ∧
    pmean [] = PValue.nan := by
  constructor <;> rfl

/-- Claim C6 counterexample: at baseline CCC 42.58, optimized CCC 15
and mean sales 1500 the cash released is 8274/73 ≈ 113.34; it is not
113.29, nor within 0.05 of it. -/
theorem cashReleased_not_11329 :
    (computeFinancialImpact ⟨0, 0, 0, 4258/100, 1500⟩
        ⟨30, 45, 60, 15⟩ (1/10)).cashReleased ≠ 11329/100 ∧
    ¬ |(computeFinancialImpact ⟨0, 0, 0, 4258/100, 1500⟩
        ⟨30, 45, 60, 15⟩ (1/10)).cashReleased - 11329/100| ≤ 1/20 := by
  constructor
  · norm_num [computeFinancialImpact]
  · simp only [computeFinancialImpact]
    rw [abs_of_pos] <;> norm_num

/-- Claim C6 amended: computeFinancialImpact returns gain = baseline
CCC - optimized CCC (possibly negative), cash released = gain *
(meanSales / 365) and interest savings = cash released * annual rate;
at baseline CCC 42.58, optimized CCC 15, mean sales 1500 the gain is
27.58 and the cash released is 8274/73 ≈ 113.34 (not 113.29). -/
theorem computeFinancialImpact_formulas :
    (∀ (b : BaselineSummary) (res : OptimizationResult) (rate : ℚ),
      (computeFinancialImpact b res rate).efficiencyGain
        = b.meanCCC - res.ccc ∧
      (computeFinancialImpact b res rate).cashReleased
        = (b.meanCCC - res.ccc) * (b.meanSales / 365) ∧
      (computeFinancialImpact b res rate).interestSavings
        = (b.meanCCC - res.ccc) * (b.meanSales / 365) * rate) ∧
    (computeFinancialImpact ⟨0, 0, 0, 4258/100, 1500⟩
        ⟨30, 45, 60, 15⟩ (1/10)).efficiencyGain = 2758/100 ∧
    (computeFinancialImpact ⟨0, 0, 0, 4258/100, 1500⟩
        ⟨30, 45, 60, 15⟩ (1/10)).cashReleased = 8274/73 := by
  refine ⟨fun b res rate => ⟨rfl, rfl, rfl⟩, ?_, ?_⟩ <;>
    norm_num [computeFinancialImpact]

/-- Claim C7: runSensitivity is deterministic for a fixed seed, returns
exactly sampleCount samples (in particular 1000 for sampleCount 1000),
and its i-th sample is DIO_opt * shock + DSO_opt * shock - DPO_opt with
DPO_opt unshocked. -/
theorem runSensitivity_deterministic_count_formula :
    (∀ (res : OptimizationResult) (n s1 s2 : ℕ), s1 = s2 →
      runSensitivity res n s1 = runSensitivity res n s2) ∧
    (∀ (res : OptimizationResult) (s : ℕ),
      (runSensitivity res 1000 s).length = 1000) ∧
    (∀ (res : OptimizationResult) (n s i : ℕ), i < n →
      (runSensitivity res n s)[i]? =
        some (res.DIO_opt * shockAt s i + res.DSO_opt * shockAt s i
          - res.DPO_opt)) := by
  refine ⟨fun res n s1 s2 h => by rw [h],
          fun res s => by simp [runSensitivity],
          fun res n s i h => ?_⟩
  simp [runSensitivity, List.getElem?_map, List.getElem?_range, h]

/-- Witness for C7: the second of two samples with seed 7 on the
optimal result follows the shock formula. -/
theorem runSensitivity_witness :
    (runSensitivity ⟨30, 45, 60, 15⟩ 2 7)[1]? =
      some ((45 : ℚ) * shockAt 7 1 + 30 * shockAt 7 1 - 60) :=
  runSensitivity_deterministic_count_formula.2.2 ⟨30, 45, 60, 15⟩ 2 7 1
    (by decide)

/-- Claim C8: for every internally consistent bounds configuration, a
point is an optimal solution of the LP (feasible with minimal
objective, the contract of any general LP solver) exactly when it is
the result of the direct bound-tightening solver — the two approaches
agree exactly. -/
theorem lp_eq_tighten (b : OptimizationBounds) (h : consistent b)
    (x y z : ℚ) :
    isOptimal b x y z ↔
      solveTighten b = Except.ok ⟨x, y, z, x + y - z⟩ := by
  constructor
  · rintro ⟨hf, hopt⟩
    have ht := tighten_feasible b h
    have hb := feasible_le_tightened b x y z hf
    have h1 : objective x y z ≤ objective (effDsoLo b) (effDioLo b) (effDpoHi b) :=
      hopt _ _ _ ht
    unfold objective at h1
    have hx : x = effDsoLo b := by linarith [hb.1, hb.2.1, hb.2.2]
    have hy : y = effDioLo b := by linarith [hb.1, hb.2.1, hb.2.2]
    have hz : z = effDpoHi b := by linarith [hb.1, hb.2.1, hb.2.2]
    subst hx; subst hy; subst hz
    rw [solveTighten, if_pos h]
  · intro heq
    rw [solveTighten, if_pos h, Except.ok.injEq, OptimizationResult.mk.injEq] at heq
    obtain ⟨hx, hy, hz, -⟩ := heq
    subst hx; subst hy; subst hz
    refine ⟨tighten_feasible b h, fun u v w hw => ?_⟩
    have hb := feasible_le_tightened b u v w hw
    unfold objective
    linarith [hb.1, hb.2.1, hb.2.2]

/-- Witness for C8: on the spec's default bounds, (30, 45, 60) is the
optimal LP solution, agreeing with the bound-tightening solver. -/
theorem lp_eq_tighten_witness : isOptimal defaultBounds 30 45 60 :=
  (lp_eq_tighten defaultBounds (by decide) 30 45 60).mpr (by rfl)

/-- Claim C9: the optimizer returns the explicit InfeasibleError value
exactly when some variable's tightened lower bound exceeds its
tightened upper bound; in particular DSO_opt ∈ [20,100] together with
the inequality DSO_opt ≥ 150 is infeasible. -/
theorem solveTighten_infeasible_iff :
    (∀ b : OptimizationBounds,
      solveTighten b = Except.error OptError.infeasible ↔
        (b.dsoHi < effDsoLo b ∨ b.dioHi < effDioLo b ∨ effDpoHi b < b.dpoLo)) ∧
    solveTighten infeasibleExample = Except.error OptError.infeasible := by
  constructor
  · intro b
    by_cases h : consistent b
    · rw [solveTighten, if_pos h]
      obtain ⟨h1, h2, h3⟩ := h
      constructor
      · intro hco; simp at hco
      · rintro (hd | hd | hd) <;> linarith
    · rw [solveTighten, if_neg h]
      refine iff_of_true rfl ?_
      rcases not_and_or.mp h with h1 | h23
      · exact Or.inl (not_le.mp h1)
      · rcases not_and_or.mp h23 with h2 | h3
        · exact Or.inr (Or.inl (not_le.mp h2))
        · exact Or.inr (Or.inr (not_le.mp h3))
  · rfl

/-- Claim C10: the sidebar annual interest rate and holding cost never
influence any computed output — the dashboard's results are identical
under any two settings of the two rates, for every table. -/
theorem rates_no_influence (df disk : List FinancialRecord)
    (u : Option (List FinancialRecord)) (r1 h1 r2 h2 : ℚ) :
    runDashboard r1 h1 df = runDashboard r2 h2 df ∧
    appRun r1 h1 u disk = appRun r2 h2 u disk := by
  constructor
  · rfl
  · cases u <;> rfl
